import Mathlib

/-!
Verification of the SimplePractice autofill engine (content.js).

The definitions below are a shallow embedding of the content script:
pure JS string operations become Lean functions on String, the DOM is
modelled by explicit structures (fields carry the attributes the code
reads), and the stateful fill routines become functions that return the
actions they would perform (writes, event dispatches, selections)
alongside their counts, so that temporal claims about event sequences
become statements about the returned action lists.
-/

namespace SPAutofill

/-! ## JavaScript string primitives -/

/-- Model of the JS toLowerCase conversion, character by character; the
vocabulary of the engine is ASCII, where the two agree. -/
def jsToLower (s : String) : String :=
  String.mk (s.toList.map Char.toLower)

/-- Model of the JS startsWith test. -/
def jsStartsWith (s pre : String) : Bool :=
  pre.toList.isPrefixOf s.toList

/-- Boolean infix test on character lists. -/
def infixOfList : List Char → List Char → Bool
  | needle, [] => needle.isEmpty
  | needle, c :: rest => needle.isPrefixOf (c :: rest) || infixOfList needle rest

/-- Model of the JS `haystack.includes(needle)` substring test. -/
def jsIncludes (haystack needle : String) : Bool :=
  infixOfList needle.toList haystack.toList

/-- Model of `value.replace(/\D/g, "")`: keep only the decimal digits. -/
def jsDigits (s : String) : String :=
  String.mk (s.toList.filter Char.isDigit)

/-- A JS word character for the purposes of a regex word boundary:
ASCII letters, digits and underscore. -/
def isWordChar (c : Char) : Bool :=
  c.isAlphanum || c == '_'

/-- A word boundary is satisfied next to a missing character or a
non-word character. -/
def wbOk : Option Char → Bool
  | none => true
  | some c => !isWordChar c

/-- The word w occurs at the head of s with word boundaries on both
sides, prev being the character immediately before s in the full text. -/
def wordAt (w : List Char) (prev : Option Char) (s : List Char) : Bool :=
  w.isPrefixOf s && wbOk prev && wbOk (s.drop w.length).head?

/-- Scan of s for a word-boundary-delimited occurrence of w. -/
def hasWordRec (w : List Char) (prev : Option Char) : List Char → Bool
  | [] => false
  | c :: rest => wordAt w prev (c :: rest) || hasWordRec w (some c) rest

/-- Model of a JS regex test of the shape new RegExp of backslash-b word
backslash-b against a string, like the month, day and year patterns of
DOB_FIELD_KEYWORDS in content.js. -/
def testWordBoundary (w : String) (s : String) : Bool :=
  hasWordRec w.toList none s.toList

/-- A JS whitespace character, for the backslash-s class. -/
def isJsSpace (c : Char) : Bool :=
  c == ' ' || c == '\t' || c == '\n' || c == '\r' || c == '\x0c' || c == '\x0b'

/-- The go-by pattern matches at the head of s: the word go, one or more
whitespace characters, the word by, with word boundaries outside. -/
def goByAt (prev : Option Char) : List Char → Bool
  | 'g' :: 'o' :: rest =>
      wbOk prev &&
      (let sp := rest.takeWhile isJsSpace
       decide (0 < sp.length) &&
       (match rest.drop sp.length with
        | 'b' :: 'y' :: rest2 => wbOk rest2.head?
        | _ => false))
  | _ => false

/-- Scan of a character list for the go-by pattern. -/
def goByScan (prev : Option Char) : List Char → Bool
  | [] => false
  | c :: rest => goByAt prev (c :: rest) || goByScan (some c) rest

/-- Model of the preferredName regex of content.js, word go, whitespace,
word by, with word boundaries. -/
def goByTest (s : String) : Bool :=
  goByScan none s.toList

/-- Model of content.js matchesAnyKeyword: text contains some keyword,
the keyword lower-cased first. -/
def matchesAnyKeyword (text : String) (keywords : List String) : Bool :=
  keywords.any (fun keyword => jsIncludes text (jsToLower keyword))

/-- Model of content.js matchesKeywords: the metadata contains every
keyword of the set. -/
def matchesKeywords (metadata : String) (keywords : List String) : Bool :=
  keywords.all (fun keyword => jsIncludes metadata keyword)

/-- Model of the JS test of the anchored one-or-two-digits regex used on
DOB month values before month-name conversion. -/
def isOneOrTwoDigits (s : String) : Bool :=
  (s.length == 1 || s.length == 2) && s.toList.all Char.isDigit

/-! ## Data model -/

/-- The ClientRecord input contract: all fields are strings and all are
individually optional (the empty string standing for an absent value),
exactly as the popup hands the record to the engine. -/
structure ClientRecord where
  clientType : String := ""
  billingType : String := ""
  firstName : String := ""
  lastName : String := ""
  preferredName : String := ""
  email : String := ""
  phone : String := ""
  dobMonth : String := ""
  dobDay : String := ""
  dobYear : String := ""

/-- The FillResult output contract of the engine. -/
structure FillResult where
  success : Bool
  fieldsFilledCount : Nat
  message : String
  deriving DecidableEq

/-! ## Semantic matcher (FIELD_MATCHERS, matchFieldToDataType) -/

/-- The semantic field types of the FIELD_MATCHERS table. -/
inductive FieldType where
  | firstName | lastName | preferredName | email | phone
  deriving DecidableEq

/-- One keyword set of a matcher: either an array of keywords that must
all occur as substrings, or the single go-by regex used by the
preferredName matcher. -/
inductive KeywordPattern where
  | words (ks : List String)
  | regexGoBy
  deriving DecidableEq

/-- Whether one keyword set fires on the lower-cased metadata blob,
following the two branches of matchFieldToDataType: a regex pattern is
tested directly, a keyword array goes through matchesKeywords. -/
def patternFires (meta : String) : KeywordPattern → Bool
  | .words ks => matchesKeywords meta ks
  | .regexGoBy => goByTest meta

/-- One entry of the FIELD_MATCHERS configuration table. -/
structure FieldMatcher where
  type : FieldType
  keywords : List KeywordPattern
  getValue : ClientRecord → String

/-- The FIELD_MATCHERS table of content.js, in source order. -/
def FIELD_MATCHERS : List FieldMatcher := [
  { type := .firstName,
    keywords := [.words ["first", "name"], .words ["given", "name"]],
    getValue := fun data => data.firstName },
  { type := .lastName,
    keywords := [.words ["last", "name"], .words ["surname"], .words ["family", "name"]],
    getValue := fun data => data.lastName },
  { type := .preferredName,
    keywords := [.words ["prefer"], .words ["nickname"], .regexGoBy],
    getValue := fun data => data.preferredName },
  { type := .email,
    keywords := [.words ["email"], .words ["e-mail"]],
    getValue := fun data => data.email },
  { type := .phone,
    keywords := [.words ["phone"], .words ["mobile"], .words ["cell"], .words ["telephone"]],
    getValue := fun data => data.phone }]

/-- The result record of matchFieldToDataType. -/
structure MatchResult where
  matched : Bool
  type : Option FieldType
  value : Option String
  deriving DecidableEq

/-- Model of matchFieldToDataType: lower-case the metadata, walk the
matchers in order, inside each matcher walk the keyword sets in order,
and return the first matcher one of whose sets fires; otherwise an
unmatched result. -/
def matchFieldToDataType (metadata : String) (data : ClientRecord) : MatchResult :=
  let meta := jsToLower metadata
  match FIELD_MATCHERS.find? (fun matcher => matcher.keywords.any (patternFires meta)) with
  | some matcher => { matched := true, type := some matcher.type, value := some (matcher.getValue data) }
  | none => { matched := false, type := none, value := none }

/-! ## Month conversion (convertMonthToName) -/

/-- The months lookup table of convertMonthToName, with both the
zero-padded and the bare key for each of the first nine months. -/
def monthsTable : List (String × String) := [
  ("01", "January"), ("1", "January"),
  ("02", "February"), ("2", "February"),
  ("03", "March"), ("3", "March"),
  ("04", "April"), ("4", "April"),
  ("05", "May"), ("5", "May"),
  ("06", "June"), ("6", "June"),
  ("07", "July"), ("7", "July"),
  ("08", "August"), ("8", "August"),
  ("09", "September"), ("9", "September"),
  ("10", "October"),
  ("11", "November"),
  ("12", "December")]

/-- Model of convertMonthToName: look the input up among the table keys
and fall back to the input itself when no key matches (every table value
is a nonempty string, so JS truthiness of the lookup is just success). -/
def convertMonthToName (monthNum : String) : String :=
  match monthsTable.lookup monthNum with
  | some name => name
  | none => monthNum

/-! ## Dropdown option selection (selectDropdownOption) -/

/-- One option element of a select, carrying its value and its text. -/
structure OptionEl where
  value : String
  text : String
  deriving DecidableEq

/-- Model of selectDropdownOption, returning the index the code would
assign to selectedIndex (followed by change and blur dispatches), or
none when the function returns false. The three loops of the source
become three ordered searches: exact value equality, case-insensitive
exact text equality, then case-insensitive substring of the target in
the option text or in the option value. -/
def selectDropdownOption (options : List OptionEl) (targetValue : String) : Option Nat :=
  match options.findIdx? (fun o => o.value == targetValue) with
  | some i => some i
  | none =>
    let targetLower := jsToLower targetValue
    match options.findIdx? (fun o => jsToLower o.text == targetLower) with
    | some i => some i
    | none =>
      options.findIdx? (fun o =>
        jsIncludes (jsToLower o.text) targetLower || jsIncludes (jsToLower o.value) targetLower)

/-- Model of a base-ten parseInt for the numeric cascade stage: the
value of the leading digit run, none when there is no leading digit. -/
def parseDigits (s : String) : Option Nat :=
  let ds := s.toList.takeWhile Char.isDigit
  if ds.isEmpty then none
  else some (ds.foldl (fun acc c => acc * 10 + (c.toNat - 48)) 0)

/-- The dropdown matching cascade as the spec words it, for refinement
comparison with selectDropdownOption: the same first three strategies
followed by a fourth, numeric equality with both sides parsed as
integers, attempted for purely numeric target values. -/
def selectDropdownOptionSpecCascade (options : List OptionEl) (targetValue : String) : Option Nat :=
  match selectDropdownOption options targetValue with
  | some i => some i
  | none =>
    if !targetValue.toList.isEmpty && targetValue.toList.all Char.isDigit then
      options.findIdx? (fun o => parseDigits o.value == parseDigits targetValue)
    else
      none

/-! ## Field metadata extraction (extractFieldMetadata) -/

/-- A DOM form control as extractFieldMetadata reads it: the seven
attribute sources the function concatenates. The associated label text
stands for the result of getAssociatedLabelText on the live DOM. -/
structure DomField where
  name : String := ""
  id : String := ""
  placeholder : String := ""
  ariaLabel : String := ""
  dataTestid : String := ""
  className : String := ""
  labelText : String := ""
  deriving DecidableEq

/-- Model of extractFieldMetadata: join the seven parts with spaces and
lower-case the result. -/
def extractFieldMetadata (field : DomField) : String :=
  (String.intercalate " "
    [field.name, field.id, field.placeholder, field.ariaLabel,
     field.dataTestid, field.className, field.labelText])
    |> jsToLower

/-! ## Masked phone protocol (fillPhoneField)

The field under the mask is modelled by a function from the string the
engine writes through the native setter to the value the field holds
once the accompanying input event has been processed; between writes the
value does not change, so the stabilization poll of waitForStableValue
observes a stable value at its first check and contributes one wait of
the check interval. The protocol itself is modelled as the ordered list
of observable actions it performs on the field. -/

/-- One observable action of the phone protocol on the field: the focus
call, the dispatched events, a native-setter write, or a timed wait. -/
inductive PhoneEvent where
  | focusCall
  | evFocus
  | evInput
  | evChange
  | evBlur
  | write (s : String)
  | waitMs (ms : Nat)
  deriving DecidableEq

/-- Whether a phone protocol action is a dispatched blur event. -/
def PhoneEvent.isBlur : PhoneEvent → Bool
  | .evBlur => true
  | _ => false

/-- Whether a phone protocol action is a native-setter write. -/
def PhoneEvent.isWrite : PhoneEvent → Bool
  | .write _ => true
  | _ => false

/-- The digit-by-digit typing loop of fillPhoneField: for each digit,
wait the fixed 150 millisecond inter-character delay unless this is the
first digit, then append the digit to the current field value through
the native setter and dispatch input. Returns the action list and the
final field value. -/
def typeDigits (mask : String → String) (cur : String) : List Char → Bool → List PhoneEvent × String
  | [], _ => ([], cur)
  | d :: ds, isFirst =>
    let pre : List PhoneEvent := if isFirst then [] else [.waitMs 150]
    let written := cur ++ String.singleton d
    let restResult := typeDigits mask (mask written) ds false
    (pre ++ [.write written, .evInput] ++ restResult.1, restResult.2)

/-- Model of fillPhoneField: focus and dispatch focus; fast-path write
of the full value plus input dispatch; wait 50 milliseconds; if the
field retained fewer digits than the target digit count minus one,
clear the field and fall back to digit-by-digit typing; then wait for
the value to stabilize and dispatch change. Returns the action list
and the final field value. -/
def fillPhoneField (mask : String → String) (value : String) : List PhoneEvent × String :=
  let fieldVal := mask value
  let digitsOnly := jsDigits value
  let fieldDigitsOnly := jsDigits fieldVal
  let header : List PhoneEvent := [.focusCall, .evFocus, .write value, .evInput, .waitMs 50]
  if (fieldDigitsOnly.length : Int) < (digitsOnly.length : Int) - 1 then
    let typed := typeDigits mask (mask "") digitsOnly.toList true
    (header ++ [.write "", .evInput] ++ typed.1 ++ [.waitMs 100, .evChange], typed.2)
  else
    (header ++ [.waitMs 100, .evChange], fieldVal)

/-- Checker for the tail of a digit-typing trace: exactly n further
blocks, each a 150 millisecond wait, then a write, then an input
dispatch. -/
def digitBlocksTail : List PhoneEvent → Nat → Bool
  | [], 0 => true
  | .waitMs 150 :: .write _ :: .evInput :: rest, n + 1 => digitBlocksTail rest n
  | _, _ => false

/-- Checker for a digit-typing trace: exactly n digit writes each
followed by an input dispatch, where every write except the first is
immediately preceded by a 150 millisecond wait and the first is not
preceded by any wait. -/
def digitBlocks : List PhoneEvent → Nat → Bool
  | [], 0 => true
  | .write _ :: .evInput :: rest, n + 1 => digitBlocksTail rest n
  | _, _ => false

/-! ## Message listener -/

/-- An inbound runtime message as the listener reads it: its action
property, absent for malformed requests, and its data payload. -/
structure InboundRequest where
  action : Option String := none
  data : ClientRecord := {}

/-- Model of the chrome.runtime.onMessage listener: when the action is
autofill, respond with the engine result, or with the structured error
record when the engine rejects; for every other request the listener
body falls through without ever calling sendResponse, so no response is
produced. -/
def onMessageListener (handleAutofill : ClientRecord → Except String FillResult)
    (request : InboundRequest) : Option FillResult :=
  if request.action == some "autofill" then
    some (match handleAutofill request.data with
      | .ok result => result
      | .error msg => { success := false, fieldsFilledCount := 0, message := "Error: " ++ msg })
  else
    none

/-! ## Text field filling (fillTextFields) -/

/-- JS truthiness of the value slot of a match result: an absent value
and the empty string are falsy, every other string is truthy. -/
def truthyValue : Option String → Bool
  | some v => !(v == "")
  | none => false

/-- One committed write of fillTextFields: applyValueToField on this
field with this value and semantic type, which performs the native
setter write and the synthetic event dispatches on that field. -/
inductive TextFillAction where
  | commit (field : DomField) (value : String) (ftype : Option FieldType)
  deriving DecidableEq

/-- The field a text fill action targets. -/
def TextFillAction.target : TextFillAction → DomField
  | .commit field _ _ => field

/-- Model of fillTextFields: walk the inputs in order; for each, extract
the metadata, run the semantic matcher, and commit the matched value to
the field exactly when the match succeeded and the value is truthy.
Returns the count and the list of performed commits in order. -/
def fillTextFields (inputs : List DomField) (data : ClientRecord) : Nat × List TextFillAction :=
  match inputs with
  | [] => (0, [])
  | field :: rest =>
    let metadata := extractFieldMetadata field
    let matchResult := matchFieldToDataType metadata data
    let restResult := fillTextFields rest data
    if matchResult.matched && truthyValue matchResult.value then
      (restResult.1 + 1,
       .commit field (matchResult.value.getD "") matchResult.type :: restResult.2)
    else
      restResult

/-- The per-field commit condition of fillTextFields: the semantic match
succeeded and the matched value is truthy. -/
def shouldFillField (field : DomField) (data : ClientRecord) : Bool :=
  let matchResult := matchFieldToDataType (extractFieldMetadata field) data
  matchResult.matched && truthyValue matchResult.value

/-! ## Select dropdown filling (fillSelectDropdowns) -/

/-- A select element: its metadata attributes plus its option list. -/
structure SelectField where
  meta : DomField
  options : List OptionEl
  deriving DecidableEq

/-- One performed dropdown selection: selectedIndex set to idx on this
select, followed by the change and blur dispatches of
selectDropdownOption. -/
inductive SelectAction where
  | selectIdx (sel : SelectField) (idx : Nat)
  deriving DecidableEq

/-- The select element a select action targets. -/
def SelectAction.target : SelectAction → SelectField
  | .selectIdx sel _ => sel

/-- The value selection step of fillSelectDropdowns: match the
lower-cased metadata against the word-boundary month, day and year
patterns of DOB_FIELD_KEYWORDS and pick the corresponding record value,
converting a one-or-two-digit month to its name; the empty string
stands for the null of the source when no pattern matches. -/
def dobValueToSelect (meta : String) (data : ClientRecord) : String :=
  if testWordBoundary "month" meta then
    let v := data.dobMonth
    if !(v == "") && isOneOrTwoDigits v then convertMonthToName v else v
  else if testWordBoundary "day" meta then data.dobDay
  else if testWordBoundary "year" meta then data.dobYear
  else ""

/-- Model of the per-select body of fillSelectDropdowns, continued: walk
the selects in order, compute the value for each and select when the
value is truthy and an option matches. -/
def fillSelectDropdowns (selects : List SelectField) (data : ClientRecord) : Nat × List SelectAction :=
  match selects with
  | [] => (0, [])
  | sel :: rest =>
    let metadata := extractFieldMetadata sel.meta
    let meta := jsToLower metadata
    let valueToSelect := dobValueToSelect meta data
    let restResult := fillSelectDropdowns rest data
    if valueToSelect == "" then
      restResult
    else
      match selectDropdownOption sel.options valueToSelect with
      | some i => (restResult.1 + 1, .selectIdx sel i :: restResult.2)
      | none => restResult

/-! ## Radio group filling (fillRadioGroups) -/

/-- A radio input as fillRadioGroups observes it: its name attribute and
the label text getRadioLabelText resolves for it. -/
structure RadioField where
  name : String := ""
  labelText : String := ""
  deriving DecidableEq

/-- The CLIENT_TYPE_KEYWORDS configuration object. -/
def CLIENT_TYPE_KEYWORDS : List (String × List String) :=
  [("adult", ["adult"]), ("minor", ["minor"]), ("couple", ["couple"])]

/-- The BILLING_TYPE_KEYWORDS configuration object. -/
def BILLING_TYPE_KEYWORDS : List (String × List String) :=
  [("self-pay", ["self", "self-pay"]), ("insurance", ["insurance"])]

/-- Model of fillRadioGroups: walk every radio; check it (write checked
and dispatch change) when its lower-cased label matches the keywords of
the record client type, or, failing that, those of the record billing
type. Returns the count and the list of radios that were checked, in
order. -/
def fillRadioGroups (radios : List RadioField) (data : ClientRecord) : Nat × List RadioField :=
  match radios with
  | [] => (0, [])
  | radio :: rest =>
    let labelText := jsToLower radio.labelText
    let restResult := fillRadioGroups rest data
    let clientHit :=
      !(data.clientType == "") &&
      (match CLIENT_TYPE_KEYWORDS.lookup (jsToLower data.clientType) with
       | some keywords => matchesAnyKeyword labelText keywords
       | none => false)
    if clientHit then
      (restResult.1 + 1, radio :: restResult.2)
    else
      let billingHit :=
        !(data.billingType == "") &&
        (match BILLING_TYPE_KEYWORDS.lookup (jsToLower data.billingType) with
         | some keywords => matchesAnyKeyword labelText keywords
         | none => false)
      if billingHit then
        (restResult.1 + 1, radio :: restResult.2)
      else
        restResult

/-- The per-radio selection condition of fillRadioGroups: the label
matches the client-type keywords of the record, or, failing that, the
billing-type keywords. -/
def radioHit (data : ClientRecord) (radio : RadioField) : Bool :=
  let labelText := jsToLower radio.labelText
  (!(data.clientType == "") &&
    (match CLIENT_TYPE_KEYWORDS.lookup (jsToLower data.clientType) with
     | some keywords => matchesAnyKeyword labelText keywords
     | none => false)) ||
  (!(data.billingType == "") &&
    (match BILLING_TYPE_KEYWORDS.lookup (jsToLower data.billingType) with
     | some keywords => matchesAnyKeyword labelText keywords
     | none => false))

/-! ## Tab finding (findTabByKeywords) -/

/-- A candidate element of the dynamic activator: its text content and
the href values of the hyperlink descendants a querySelectorAll for
anchors with href would return inside it. -/
structure TabElement where
  textContent : String
  linkHrefs : List String
  deriving DecidableEq

/-- An element contains a hyperlink to an external absolute URL: some
contained href starts with http and does not mention the target domain. -/
def hasExternalLink (el : TabElement) : Bool :=
  el.linkHrefs.any (fun href =>
    jsStartsWith href "http" && !jsIncludes href "simplepractice.com")

/-- The CONTACT_TAB_KEYWORDS configuration. -/
def CONTACT_TAB_KEYWORDS : List String := ["contact"]

/-- The DOM as findTabByKeywords queries it: the elements with an
explicit tab role, then the button-like elements of its second query,
each in document order. -/
structure TabDom where
  roleTabs : List TabElement
  buttonLike : List TabElement
  deriving DecidableEq

/-- Model of findTabByKeywords: return the first role-tab element whose
text matches a keyword; otherwise the first button-like element whose
text matches and which does not contain an external link; otherwise
none. The external-link rejection appears only in the second loop of
the source. -/
def findTabByKeywords (dom : TabDom) (keywords : List String) : Option TabElement :=
  match dom.roleTabs.find? (fun tab => matchesAnyKeyword (jsToLower tab.textContent) keywords) with
  | some tab => some tab
  | none =>
    dom.buttonLike.find? (fun btn =>
      matchesAnyKeyword (jsToLower btn.textContent) keywords && !hasExternalLink btn)

/-! ## Readiness gate (autofillWithRetry) -/

/-- One snapshot of the visible fields getAllVisibleFields returns on a
given attempt: the visible enabled text-capable inputs, the visible
radios and the visible enabled selects. -/
structure FieldsSnapshot where
  inputs : List DomField := []
  radios : List RadioField := []
  selects : List SelectField := []

/-- The retry loop of autofillWithRetry: on each attempt query the page
snapshot; when at least one text-capable input is visible, hand off to
the single-pass fill and return its result; otherwise retry, and after
the last attempt return the structured failure result having performed
no fill actions. The page is modelled as a map from attempt number to
snapshot and the single-pass fill as a function returning its result
and its performed actions. -/
def autofillWithRetryLoop {α : Type} (page : Nat → FieldsSnapshot)
    (autofillOnce : ClientRecord → FieldsSnapshot → FillResult × List α)
    (data : ClientRecord) (maxRetries : Nat) (attempt : Nat) : FillResult × List α :=
  if _h : attempt ≤ maxRetries then
    let allFields := page attempt
    if 0 < allFields.inputs.length then
      autofillOnce data allFields
    else
      autofillWithRetryLoop page autofillOnce data maxRetries (attempt + 1)
  else
    ({ success := false, fieldsFilledCount := 0,
       message := "No form fields detected after retries" }, [])
termination_by maxRetries + 1 - attempt
decreasing_by omega

/-- Model of autofillWithRetry with its default bound of 10 attempts,
numbered from 1 as in the source loop. -/
def autofillWithRetry {α : Type} (page : Nat → FieldsSnapshot)
    (autofillOnce : ClientRecord → FieldsSnapshot → FillResult × List α)
    (data : ClientRecord) (maxRetries : Nat := 10) : FillResult × List α :=
  autofillWithRetryLoop page autofillOnce data maxRetries 1

/-- The registered onMessage listener of content.js as actually wired:
the autofill branch runs autofillWithRetry on the request data against
the page environment and responds with its result record; the engine of
the model is total, so the catch branch of the source, modelled by the
error case of onMessageListener, is never taken here. -/
def contentScriptOnMessage {α : Type} (page : Nat → FieldsSnapshot)
    (autofillOnce : ClientRecord → FieldsSnapshot → FillResult × List α)
    (request : InboundRequest) : Option FillResult :=
  onMessageListener
    (fun data => Except.ok (autofillWithRetry page autofillOnce data).1) request

/-! ## Reference values used by the statements and witnesses -/

/-- The twelve month names, in order, as the specification side of the
month-conversion claim. -/
def monthNames : List String :=
  ["January", "February", "March", "April", "May", "June",
   "July", "August", "September", "October", "November", "December"]

/-- Zero-padded two-digit decimal rendering of a month number. -/
def zeroPadTwo (n : Nat) : String :=
  if n < 10 then "0" ++ Nat.repr n else Nat.repr n

/-- A concrete single-pass fill function for exercising the readiness
gate: reports the number of visible inputs it was handed. -/
def demoFillOnce : ClientRecord → FieldsSnapshot → FillResult × List Nat :=
  fun _ snap =>
    ({ success := true, fieldsFilledCount := snap.inputs.length,
       message := "Filled" }, [snap.inputs.length])

/-- A page on which no attempt ever sees a visible input field. -/
def demoEmptyPage : Nat → FieldsSnapshot := fun _ => {}

/-- A page that renders its first visible input on the third attempt. -/
def demoPageReadyAt3 : Nat → FieldsSnapshot :=
  fun k => if k == 3 then { inputs := [{ name := "first name" }] } else {}

/-- A text input whose metadata matches the first-name rule. -/
def demoTextField : DomField := { name := "first name" }

/-- A month DOB dropdown with a selectable option. -/
def demoMonthSelect : SelectField :=
  { meta := { name := "month" }, options := [{ value := "January", text := "January" }] }

/-- A day DOB dropdown with a selectable option. -/
def demoDaySelect : SelectField :=
  { meta := { name := "day" }, options := [{ value := "1", text := "1" }] }

/-- A year DOB dropdown with a selectable option. -/
def demoYearSelect : SelectField :=
  { meta := { name := "year" }, options := [{ value := "1990", text := "1990" }] }

/-- The three DOB dropdowns together, as one fill pass sees them. -/
def demoDobSelects : List SelectField := [demoMonthSelect, demoDaySelect, demoYearSelect]

end SPAutofill

namespace SPAutofill

/-! ## Supporting lemmas -/

lemma getLast?_append_pair {α : Type} (l : List α) (a b : α) :
    (l ++ [a, b]).getLast? = some b := by
  rw [show l ++ [a, b] = (l ++ [a]) ++ [b] by simp]
  exact List.getLast?_concat _

lemma typeDigits_filter_blur (mask : String → String) :
    ∀ (ds : List Char) (cur : String) (isFirst : Bool),
      (typeDigits mask cur ds isFirst).1.filter PhoneEvent.isBlur = [] := by
  intro ds
  induction ds with
  | nil => intro cur isFirst; simp [typeDigits]
  | cons d ds ih =>
    intro cur isFirst
    cases isFirst <;> simp [typeDigits, List.filter_append, ih, PhoneEvent.isBlur]

lemma digitBlocksTail_typeDigits (mask : String → String) :
    ∀ (ds : List Char) (cur : String),
      digitBlocksTail (typeDigits mask cur ds false).1 ds.length = true := by
  intro ds
  induction ds with
  | nil => intro cur; simp [typeDigits, digitBlocksTail]
  | cons d ds ih =>
    intro cur
    simp [typeDigits, digitBlocksTail, ih]

lemma digitBlocks_typeDigits (mask : String → String) (ds : List Char) (cur : String) :
    digitBlocks (typeDigits mask cur ds true).1 ds.length = true := by
  cases ds with
  | nil => simp [typeDigits, digitBlocks]
  | cons d ds => simp [typeDigits, digitBlocks, digitBlocksTail_typeDigits]

lemma retryLoop_all_empty {α : Type} (page : Nat → FieldsSnapshot)
    (autofillOnce : ClientRecord → FieldsSnapshot → FillResult × List α)
    (data : ClientRecord) (maxRetries : Nat) :
    ∀ (fuel attempt : Nat), maxRetries + 1 - attempt ≤ fuel →
      (∀ k, attempt ≤ k → k ≤ maxRetries → (page k).inputs.length = 0) →
      autofillWithRetryLoop page autofillOnce data maxRetries attempt =
        ({ success := false, fieldsFilledCount := 0,
           message := "No form fields detected after retries" }, []) := by
  intro fuel
  induction fuel with
  | zero =>
    intro attempt hf hempty
    rw [autofillWithRetryLoop, dif_neg (by omega)]
  | succ fuel ih =>
    intro attempt hf hempty
    rw [autofillWithRetryLoop]
    by_cases hle : attempt ≤ maxRetries
    · rw [dif_pos hle]
      dsimp only
      have h0 : (page attempt).inputs.length = 0 := hempty attempt le_rfl hle
      rw [if_neg (by omega)]
      exact ih (attempt + 1) (by omega) (fun k hk1 hk2 => hempty k (by omega) hk2)
    · rw [dif_neg hle]

lemma retryLoop_handoff {α : Type} (page : Nat → FieldsSnapshot)
    (autofillOnce : ClientRecord → FieldsSnapshot → FillResult × List α)
    (data : ClientRecord) (maxRetries : Nat) (N : Nat) :
    ∀ (fuel attempt : Nat), N - attempt ≤ fuel → attempt ≤ N → N ≤ maxRetries →
      (∀ k, attempt ≤ k → k < N → (page k).inputs.length = 0) →
      0 < (page N).inputs.length →
      autofillWithRetryLoop page autofillOnce data maxRetries attempt =
        autofillOnce data (page N) := by
  intro fuel
  induction fuel with
  | zero =>
    intro attempt hf h1 h2 hempty hpos
    have heq : attempt = N := by omega
    subst heq
    rw [autofillWithRetryLoop, dif_pos (by omega)]
    dsimp only
    rw [if_pos hpos]
  | succ fuel ih =>
    intro attempt hf h1 h2 hempty hpos
    by_cases heq : attempt = N
    · subst heq
      rw [autofillWithRetryLoop, dif_pos (by omega)]
      dsimp only
      rw [if_pos hpos]
    · have hlt : attempt < N := by omega
      rw [autofillWithRetryLoop, dif_pos (by omega)]
      dsimp only
      rw [if_neg (by have := hempty attempt le_rfl hlt; omega)]
      exact ih (attempt + 1) (by omega) (by omega) h2
        (fun k hk1 hk2 => hempty k (by omega) hk2) hpos

lemma fillTextFields_char (data : ClientRecord) :
    ∀ (inputs : List DomField),
      fillTextFields inputs data =
        ((inputs.filter (fun g => shouldFillField g data)).length,
         (inputs.filter (fun g => shouldFillField g data)).map
           (fun g => TextFillAction.commit g
              ((matchFieldToDataType (extractFieldMetadata g) data).value.getD "")
              (matchFieldToDataType (extractFieldMetadata g) data).type)) := by
  intro inputs
  induction inputs with
  | nil => simp [fillTextFields]
  | cons field rest ih =>
    by_cases h : shouldFillField field data = true
    · have hg : ((matchFieldToDataType (extractFieldMetadata field) data).matched &&
        truthyValue (matchFieldToDataType (extractFieldMetadata field) data).value) = true := h
      simp only [fillTextFields, ih, List.filter_cons, h, if_true, hg]
      simp
    · have hg : ((matchFieldToDataType (extractFieldMetadata field) data).matched &&
        truthyValue (matchFieldToDataType (extractFieldMetadata field) data).value) = false := by
        rw [Bool.not_eq_true] at h
        exact h
      simp only [fillTextFields, ih, List.filter_cons, h, hg]
      simp

lemma fillSelectDropdowns_targets (data : ClientRecord) :
    ∀ (selects : List SelectField) (a : SelectAction),
      a ∈ (fillSelectDropdowns selects data).2 →
      dobValueToSelect (jsToLower (extractFieldMetadata a.target.meta)) data ≠ "" := by
  intro selects
  induction selects with
  | nil => intro a ha; simp [fillSelectDropdowns] at ha
  | cons sel rest ih =>
    intro a ha
    by_cases hv : dobValueToSelect (jsToLower (extractFieldMetadata sel.meta)) data = ""
    · have hb : (dobValueToSelect (jsToLower (extractFieldMetadata sel.meta)) data == "") = true := by
        rw [hv]; rfl
      simp only [fillSelectDropdowns, hb, if_true] at ha
      exact ih a ha
    · have hb : (dobValueToSelect (jsToLower (extractFieldMetadata sel.meta)) data == "") = false := by
        simpa using hv
      simp only [fillSelectDropdowns, hb] at ha
      cases hopt : selectDropdownOption sel.options
          (dobValueToSelect (jsToLower (extractFieldMetadata sel.meta)) data) with
      | some i =>
        rw [hopt] at ha
        simp at ha
        cases ha with
        | inl heq =>
          subst heq
          exact hv
        | inr hmem => exact ih a hmem
      | none =>
        rw [hopt] at ha
        exact ih a ha

/-! ## Claim theorems -/

/-- Claim C1: for every masked field behavior and every phone value
committed through fillPhoneField, the action sequence dispatched on the
field contains no blur event, and it ends with a change event. -/
theorem claim1_phone_no_blur_ends_change (mask : String → String) (value : String) :
    (fillPhoneField mask value).1.filter PhoneEvent.isBlur = [] ∧
    (fillPhoneField mask value).1.getLast? = some PhoneEvent.evChange := by
  unfold fillPhoneField
  dsimp only
  constructor
  · split
    · simp [List.filter_append, typeDigits_filter_blur, PhoneEvent.isBlur]
    · simp [List.filter_append, PhoneEvent.isBlur]
  · split
    · simp only [← List.append_assoc]
      exact getLast?_append_pair _ _ _
    · simp only [← List.append_assoc]
      exact getLast?_append_pair _ _ _

end SPAutofill

namespace SPAutofill

/-- Claim C2 counterexample: against the listener as actually wired to
the engine, a concrete message whose action is ping, and one carrying no
action at all, are answered with nothing: the listener never calls
sendResponse for them, so they are not answered with a success-false
result object as claimed; by contrast the same wired listener does
answer an autofill request on the same page with the structured failure
record, so the silence is specific to the unknown action. -/
theorem claim2_unknown_action_unanswered_cex :
    contentScriptOnMessage demoEmptyPage demoFillOnce { action := some "ping" } = none ∧
    contentScriptOnMessage demoEmptyPage demoFillOnce { action := none } = none ∧
    contentScriptOnMessage demoEmptyPage demoFillOnce { action := some "autofill" } =
      some { success := false, fieldsFilledCount := 0,
             message := "No form fields detected after retries" } := by
  refine ⟨rfl, rfl, ?_⟩
  have hred : contentScriptOnMessage demoEmptyPage demoFillOnce { action := some "autofill" } =
      some (autofillWithRetry demoEmptyPage demoFillOnce {}).1 := rfl
  have hfail : autofillWithRetry demoEmptyPage demoFillOnce ({} : ClientRecord) =
      ({ success := false, fieldsFilledCount := 0,
         message := "No form fields detected after retries" }, ([] : List Nat)) :=
    retryLoop_all_empty demoEmptyPage demoFillOnce {} 10 10 1 (by omega) (fun _ _ _ => rfl)
  rw [hred, hfail]

/-- Claim C2 amended: a request whose action is autofill always receives
a response: as wired, the result of autofillWithRetry on the request
data, and, would the engine reject with a message, the structured record
with success false, zero count and an error message; a request with any
other or missing action receives no response from the wired listener,
and the listener does not throw in either case. -/
theorem claim2_message_listener_amended {α : Type} (page : Nat → FieldsSnapshot)
    (autofillOnce : ClientRecord → FieldsSnapshot → FillResult × List α)
    (request : InboundRequest) :
    (request.action = some "autofill" →
      contentScriptOnMessage page autofillOnce request =
        some (autofillWithRetry page autofillOnce request.data).1) ∧
    (request.action ≠ some "autofill" →
      contentScriptOnMessage page autofillOnce request = none) ∧
    (∀ (handleAutofill : ClientRecord → Except String FillResult),
      request.action = some "autofill" →
      (∀ r, handleAutofill request.data = Except.ok r →
        onMessageListener handleAutofill request = some r) ∧
      (∀ msg, handleAutofill request.data = Except.error msg →
        onMessageListener handleAutofill request =
          some { success := false, fieldsFilledCount := 0, message := "Error: " ++ msg })) ∧
    (∀ (handleAutofill : ClientRecord → Except String FillResult),
      request.action ≠ some "autofill" →
      onMessageListener handleAutofill request = none) := by
  refine ⟨?_, ?_, ?_, ?_⟩
  · intro ha
    unfold contentScriptOnMessage
    simp [onMessageListener, ha]
  · intro hne
    unfold contentScriptOnMessage
    simp [onMessageListener, hne]
  · intro handleAutofill ha
    constructor
    · intro r hr
      simp [onMessageListener, ha, hr]
    · intro msg hmsg
      simp [onMessageListener, ha, hmsg]
  · intro handleAutofill hne
    simp [onMessageListener, hne]

/-- Claim C2 witness: the amended listener behavior at concrete
requests: a wired autofill request answered with the engine result, a
wired buttonClicked request left unanswered, and a rejecting engine
answered with the structured error record. -/
theorem claim2_message_listener_amended_witness :
    contentScriptOnMessage demoPageReadyAt3 demoFillOnce { action := some "autofill" } =
      some (autofillWithRetry demoPageReadyAt3 demoFillOnce ({} : ClientRecord)).1 ∧
    contentScriptOnMessage demoPageReadyAt3 demoFillOnce { action := some "buttonClicked" } = none ∧
    onMessageListener (fun _ => Except.error "boom") { action := some "autofill" } =
      some { success := false, fieldsFilledCount := 0, message := "Error: boom" } :=
  ⟨(claim2_message_listener_amended demoPageReadyAt3 demoFillOnce
      { action := some "autofill" }).1 rfl,
   (claim2_message_listener_amended demoPageReadyAt3 demoFillOnce
      { action := some "buttonClicked" }).2.1 (by decide),
   ((claim2_message_listener_amended demoPageReadyAt3 demoFillOnce
      { action := some "autofill" }).2.2.1 (fun _ => Except.error "boom") rfl).2 "boom" rfl⟩

/-- Claim C3 counterexample: an element carrying the explicit tab role
whose text matches the contact keyword is returned by findTabByKeywords
even though it contains a hyperlink to an external absolute URL, because
the external-link rejection guards only the second, button-like scan. -/
theorem claim3_external_link_tab_cex :
    findTabByKeywords
      { roleTabs := [{ textContent := "Contact", linkHrefs := ["http://evil.example.com/page"] }],
        buttonLike := [] } CONTACT_TAB_KEYWORDS =
      some { textContent := "Contact", linkHrefs := ["http://evil.example.com/page"] } ∧
    hasExternalLink { textContent := "Contact", linkHrefs := ["http://evil.example.com/page"] } = true := by
  decide

/-- Claim C3 amended: every element findTabByKeywords returns either
comes from the explicit tab-role query, which is not screened for
external links, or is a button-like candidate that contains no external
absolute link; in particular the external-link guarantee does hold for
all button-like candidates. -/
theorem claim3_tab_search_amended (dom : TabDom) (keywords : List String) (el : TabElement)
    (h : findTabByKeywords dom keywords = some el) :
    el ∈ dom.roleTabs ∨ hasExternalLink el = false := by
  unfold findTabByKeywords at h
  cases hf : dom.roleTabs.find? (fun tab => matchesAnyKeyword (jsToLower tab.textContent) keywords) with
  | some tab =>
    rw [hf] at h
    injection h with h2
    subst h2
    exact Or.inl (List.mem_of_find?_eq_some hf)
  | none =>
    rw [hf] at h
    have hp := List.find?_some h
    right
    have h2 := (Bool.and_eq_true _ _).mp hp
    simpa using h2.2

/-- Claim C3 witness: with no role tabs and a matching button-like
candidate that carries an external link followed by a clean one, the
search skips the external-link candidate and what it returns contains no
external link. -/
theorem claim3_tab_search_amended_witness :
    ({ textContent := "contact us", linkHrefs := [] } : TabElement) ∈
      ([] : List TabElement) ∨
    hasExternalLink { textContent := "contact us", linkHrefs := [] } = false :=
  claim3_tab_search_amended
    { roleTabs := [],
      buttonLike := [{ textContent := "contact page", linkHrefs := ["http://x.example.org"] },
                     { textContent := "contact us", linkHrefs := [] }] }
    CONTACT_TAB_KEYWORDS
    { textContent := "contact us", linkHrefs := [] } (by decide)

/-- Claim C4 counterexample: the claimed cascade ends with a numeric
equality stage, but selectDropdownOption has no such stage: for the
purely numeric target 05 and a single option with value 5 and text 5,
the claimed cascade selects index 0 by numeric equality while the code
selects nothing. -/
theorem claim4_numeric_stage_cex :
    selectDropdownOption [{ value := "5", text := "5" }] "05" = none ∧
    selectDropdownOptionSpecCascade [{ value := "5", text := "5" }] "05" = some 0 := by
  decide

/-- Claim C4 amended: the cascade of selectDropdownOption has three
stages, exact value equality, then case-insensitive exact text
equality, then case-insensitive substring of the target inside the
option text or option value; the first successful stage wins and
short-circuits the rest, so in particular an exact-value match is
chosen over a different partial-text match; there is no numeric
equality stage. -/
theorem claim4_cascade_amended (options : List OptionEl) (targetValue : String) :
    (∀ i, options.findIdx? (fun o => o.value == targetValue) = some i →
      selectDropdownOption options targetValue = some i) ∧
    (options.findIdx? (fun o => o.value == targetValue) = none →
      ∀ j, options.findIdx? (fun o => jsToLower o.text == jsToLower targetValue) = some j →
        selectDropdownOption options targetValue = some j) ∧
    (options.findIdx? (fun o => o.value == targetValue) = none →
      options.findIdx? (fun o => jsToLower o.text == jsToLower targetValue) = none →
      selectDropdownOption options targetValue =
        options.findIdx? (fun o =>
          jsIncludes (jsToLower o.text) (jsToLower targetValue) ||
          jsIncludes (jsToLower o.value) (jsToLower targetValue))) := by
  refine ⟨?_, ?_, ?_⟩
  · intro i hi
    unfold selectDropdownOption
    rw [hi]
  · intro h1 j hj
    unfold selectDropdownOption
    rw [h1]
    dsimp only
    rw [hj]
  · intro h1 h2
    unfold selectDropdownOption
    rw [h1]
    dsimp only
    rw [h2]

/-- Claim C4 witness: in an option set offering both a partial-text
match at index 0 and an exact-value match at index 1, the exact-value
match is chosen. -/
theorem claim4_cascade_amended_witness :
    (List.findIdx? (fun o => o.value == "March")
      [({ value := "x", text := "March madness" } : OptionEl), { value := "March", text := "M" }] = some 1) ∧
    selectDropdownOption
      [({ value := "x", text := "March madness" } : OptionEl), { value := "March", text := "M" }] "March" = some 1 :=
  ⟨by decide,
   (claim4_cascade_amended
     [{ value := "x", text := "March madness" }, { value := "March", text := "M" }] "March").1 1 (by decide)⟩

/-- Claim C5 counterexample: no keyword set anywhere in FIELD_MATCHERS
mentions the word legal, so no legal-first-name rule exists to be
evaluated before the generic first-name rule; a metadata blob reading
legal first name is matched exactly like one reading first name. -/
theorem claim5_no_legal_rule_cex :
    (FIELD_MATCHERS.all (fun matcher => matcher.keywords.all (fun p =>
      match p with
      | .words ks => !(ks.contains "legal")
      | .regexGoBy => true))) = true ∧
    matchFieldToDataType "Legal First Name" { firstName := "Ana", preferredName := "Pat" } =
      matchFieldToDataType "First Name" { firstName := "Ana", preferredName := "Pat" } := by
  decide

/-- Claim C5 amended: the matcher table has no legal-first-name rule;
the firstName matcher is the first entry, its first-name keyword set is
listed before its given-name set, and whenever the first-name set fires
on the lower-cased metadata the matcher resolves the field to firstName
with the record first name as value. -/
theorem claim5_matcher_priority_amended (metadata : String) (data : ClientRecord)
    (h : patternFires (jsToLower metadata) (.words ["first", "name"]) = true) :
    (matchFieldToDataType metadata data).type = some FieldType.firstName ∧
    (matchFieldToDataType metadata data).value = some data.firstName ∧
    (FIELD_MATCHERS.head?.map (fun m => m.keywords)) =
      some [.words ["first", "name"], .words ["given", "name"]] := by
  have hfind : FIELD_MATCHERS.find?
      (fun matcher => matcher.keywords.any (patternFires (jsToLower metadata))) =
      some { type := .firstName,
             keywords := [.words ["first", "name"], .words ["given", "name"]],
             getValue := fun d => d.firstName } := by
    apply List.find?_cons_of_pos
    simp [List.any, h]
  unfold matchFieldToDataType
  dsimp only
  rw [hfind]
  exact ⟨rfl, rfl, rfl⟩

/-- Claim C5 witness: the amended matcher priority at the concrete blob
legal first name with a record whose first name is Ana. -/
theorem claim5_matcher_priority_amended_witness :
    (matchFieldToDataType "Legal First Name" { firstName := "Ana" }).type = some FieldType.firstName ∧
    (matchFieldToDataType "Legal First Name" { firstName := "Ana" }).value = some "Ana" :=
  ⟨(claim5_matcher_priority_amended "Legal First Name" { firstName := "Ana" } (by decide)).1,
   (claim5_matcher_priority_amended "Legal First Name" { firstName := "Ana" } (by decide)).2.1⟩

/-- Claim C6 counterexample: two radios sharing one name attribute whose
labels both contain the adult keyword are both selected in a single
pass, so at most one selection per group does not hold. -/
theorem claim6_same_group_double_select_cex :
    fillRadioGroups
      [{ name := "clientType", labelText := "Adult" },
       { name := "clientType", labelText := "Adult client" }]
      { clientType := "adult" } =
      (2, [{ name := "clientType", labelText := "Adult" },
           { name := "clientType", labelText := "Adult client" }]) ∧
    ({ name := "clientType", labelText := "Adult" } : RadioField).name =
      ({ name := "clientType", labelText := "Adult client" } : RadioField).name := by
  decide

/-- Claim C6 amended: fillRadioGroups performs no grouping at all, by
name or otherwise: the radios it selects in one pass are exactly those
whose label matches the client-type vocabulary or, failing that, the
billing-type vocabulary, so several same-name radios can all be
selected; each individual radio is selected at most once because the
selected list is a sublist of the radio list. -/
theorem claim6_radio_fill_amended (radios : List RadioField) (data : ClientRecord) :
    fillRadioGroups radios data =
      ((radios.filter (radioHit data)).length, radios.filter (radioHit data)) ∧
    (fillRadioGroups radios data).2.Sublist radios := by
  have hchar : ∀ (rs : List RadioField),
      fillRadioGroups rs data = ((rs.filter (radioHit data)).length, rs.filter (radioHit data)) := by
    intro rs
    induction rs with
    | nil => simp [fillRadioGroups]
    | cons r rest ih =>
      by_cases hc : (!(data.clientType == "") &&
        (match CLIENT_TYPE_KEYWORDS.lookup (jsToLower data.clientType) with
         | some keywords => matchesAnyKeyword (jsToLower r.labelText) keywords
         | none => false)) = true
      · have hhit : radioHit data r = true := by
          unfold radioHit
          dsimp only
          rw [hc]
          rfl
        simp only [fillRadioGroups, ih, hc, if_true, List.filter_cons, hhit]
        simp
      · rw [Bool.not_eq_true] at hc
        by_cases hb : (!(data.billingType == "") &&
          (match BILLING_TYPE_KEYWORDS.lookup (jsToLower data.billingType) with
           | some keywords => matchesAnyKeyword (jsToLower r.labelText) keywords
           | none => false)) = true
        · have hhit : radioHit data r = true := by
            unfold radioHit
            dsimp only
            rw [hc, hb]
            rfl
          simp only [fillRadioGroups, ih, hc, hb, List.filter_cons, hhit]
          simp
        · rw [Bool.not_eq_true] at hb
          have hhit : radioHit data r = false := by
            unfold radioHit
            dsimp only
            rw [hc, hb]
            rfl
          simp only [fillRadioGroups, ih, hc, hb, List.filter_cons, hhit]
          simp
  refine ⟨hchar radios, ?_⟩
  rw [hchar radios]
  exact List.filter_sublist radios

/-- Claim C7: over the ten attempts of autofillWithRetry, if every
attempt sees zero visible text-capable inputs the engine returns the
structured failure result with success false and zero count and performs
no fill actions; if some attempt N at most 10 is the first to see an
input, the engine hands off to the single-pass fill on attempt N and
returns its result. -/
theorem claim7_retry_gate {α : Type} (page : Nat → FieldsSnapshot)
    (autofillOnce : ClientRecord → FieldsSnapshot → FillResult × List α) (data : ClientRecord) :
    ((∀ k, 1 ≤ k → k ≤ 10 → (page k).inputs.length = 0) →
      autofillWithRetry page autofillOnce data =
        ({ success := false, fieldsFilledCount := 0,
           message := "No form fields detected after retries" }, [])) ∧
    (∀ N, 1 ≤ N → N ≤ 10 → (∀ k, 1 ≤ k → k < N → (page k).inputs.length = 0) →
      0 < (page N).inputs.length →
      autofillWithRetry page autofillOnce data = autofillOnce data (page N)) := by
  constructor
  · intro hempty
    exact retryLoop_all_empty page autofillOnce data 10 10 1 (by omega) hempty
  · intro N h1 h2 hempty hpos
    exact retryLoop_handoff page autofillOnce data 10 N (N - 1) 1 (by omega) h1 h2 hempty hpos

/-- Claim C7 witness: the readiness gate at a page that never shows an
input, and at a page whose first input appears on attempt 3. -/
theorem claim7_retry_gate_witness :
    autofillWithRetry demoEmptyPage demoFillOnce {} =
      ({ success := false, fieldsFilledCount := 0,
         message := "No form fields detected after retries" }, ([] : List Nat)) ∧
    autofillWithRetry demoPageReadyAt3 demoFillOnce {} =
      demoFillOnce {} (demoPageReadyAt3 3) :=
  ⟨(claim7_retry_gate demoEmptyPage demoFillOnce {}).1 (fun _ _ _ => rfl),
   (claim7_retry_gate demoPageReadyAt3 demoFillOnce {}).2 3 (by decide) (by decide)
     (fun k hk1 hk2 => by
       have hne : k ≠ 3 := by omega
       simp [demoPageReadyAt3, hne])
     (by decide)⟩

/-- Claim C8: the digit-by-digit fallback of fillPhoneField runs exactly
when the field retained more than one fewer digit than the target digit
count after the fast path; when it runs, the trace is the fast-path
prefix, the clearing write, then one digit write with input dispatch per
target digit, every digit write except the first immediately preceded by
the fixed 150 millisecond delay, before the stabilization wait and the
final change; otherwise the trace has no extra writes. -/
theorem claim8_phone_fallback_iff (mask : String → String) (value : String) :
    ((jsDigits (mask value)).length + 1 < (jsDigits value).length →
      (fillPhoneField mask value).1 =
        [PhoneEvent.focusCall, PhoneEvent.evFocus, PhoneEvent.write value, PhoneEvent.evInput,
          PhoneEvent.waitMs 50, PhoneEvent.write "", PhoneEvent.evInput]
          ++ (typeDigits mask (mask "") (jsDigits value).toList true).1
          ++ [PhoneEvent.waitMs 100, PhoneEvent.evChange] ∧
      digitBlocks (typeDigits mask (mask "") (jsDigits value).toList true).1
        (jsDigits value).length = true) ∧
    (¬ (jsDigits (mask value)).length + 1 < (jsDigits value).length →
      (fillPhoneField mask value).1 =
        [PhoneEvent.focusCall, PhoneEvent.evFocus, PhoneEvent.write value, PhoneEvent.evInput,
          PhoneEvent.waitMs 50, PhoneEvent.waitMs 100, PhoneEvent.evChange]) := by
  have hlen : ((jsDigits value).toList.length) = (jsDigits value).length := rfl
  constructor
  · intro h
    have hc : ((jsDigits (mask value)).length : Int) < ((jsDigits value).length : Int) - 1 := by
      omega
    constructor
    · unfold fillPhoneField
      dsimp only
      rw [if_pos hc]
      simp
    · rw [← hlen]
      exact digitBlocks_typeDigits mask _ _
  · intro h
    have hc : ¬ ((jsDigits (mask value)).length : Int) < ((jsDigits value).length : Int) - 1 := by
      omega
    unfold fillPhoneField
    dsimp only
    rw [if_neg hc]
    rfl

/-- Claim C8 witness: a mask that rejects every write makes the ten
digit target fall back to exactly ten delayed digit blocks, and the
identity mask keeps the fast path with no further writes. -/
theorem claim8_phone_fallback_iff_witness :
    digitBlocks (typeDigits (fun _ => "") ((fun (_ : String) => "") "")
      (jsDigits "(555) 123-4567").toList true).1 (jsDigits "(555) 123-4567").length = true ∧
    (fillPhoneField (fun s => s) "(555) 123-4567").1 =
      [PhoneEvent.focusCall, PhoneEvent.evFocus, PhoneEvent.write "(555) 123-4567",
        PhoneEvent.evInput, PhoneEvent.waitMs 50, PhoneEvent.waitMs 100, PhoneEvent.evChange] :=
  ⟨((claim8_phone_fallback_iff (fun _ => "") "(555) 123-4567").1 (by decide)).2,
   (claim8_phone_fallback_iff (fun s => s) "(555) 123-4567").2 (by decide)⟩

/-- Claim C9: convertMonthToName is total over strings, sends every
month number from 1 to 12, bare or zero-padded, to the month name, and
returns any input outside its table, such as 13, unchanged. -/
theorem claim9_month_conversion :
    (∀ n : Fin 12,
      convertMonthToName (Nat.repr (n.val + 1)) = monthNames.getD n.val "" ∧
      convertMonthToName (zeroPadTwo (n.val + 1)) = monthNames.getD n.val "") ∧
    convertMonthToName "13" = "13" ∧
    (∀ s : String, monthsTable.lookup s = none → convertMonthToName s = s) := by
  refine ⟨by decide, by decide, ?_⟩
  intro s h
  unfold convertMonthToName
  rw [h]

/-- Claim C9 witness: the passthrough clause of the month conversion at
the concrete out-of-table input 31. -/
theorem claim9_month_conversion_witness :
    monthsTable.lookup "31" = none ∧ convertMonthToName "31" = "31" :=
  ⟨by decide, claim9_month_conversion.2.2 "31" (by decide)⟩

/-- Claim C10: a field whose metadata matches a rule but whose selected
record value is the empty string receives no commit action, so no write
and no events, and contributes nothing to the fill count, which equals
the number of fields passing the truthy-value gate; likewise a DOB
dropdown, whether it lands in the month, day or year branch of the
matcher chain, receives no selection action when the record value of
its branch is empty. -/
theorem claim10_empty_value_untouched
    (inputs : List DomField) (selects : List SelectField) (data : ClientRecord)
    (f : DomField) (sel : SelectField)
    (hmatched : (matchFieldToDataType (extractFieldMetadata f) data).matched = true)
    (hempty : (matchFieldToDataType (extractFieldMetadata f) data).value = some "")
    (hdob :
      (testWordBoundary "month" (jsToLower (extractFieldMetadata sel.meta)) = true ∧
        data.dobMonth = "") ∨
      (testWordBoundary "month" (jsToLower (extractFieldMetadata sel.meta)) = false ∧
        testWordBoundary "day" (jsToLower (extractFieldMetadata sel.meta)) = true ∧
        data.dobDay = "") ∨
      (testWordBoundary "month" (jsToLower (extractFieldMetadata sel.meta)) = false ∧
        testWordBoundary "day" (jsToLower (extractFieldMetadata sel.meta)) = false ∧
        testWordBoundary "year" (jsToLower (extractFieldMetadata sel.meta)) = true ∧
        data.dobYear = "")) :
    ((fillTextFields inputs data).2.all (fun a => !(a.target == f))) = true ∧
    (fillTextFields inputs data).1 = (inputs.filter (fun g => shouldFillField g data)).length ∧
    shouldFillField f data = false ∧
    ((fillSelectDropdowns selects data).2.all (fun a => !(a.target == sel))) = true := by
  have hsf : shouldFillField f data = false := by
    unfold shouldFillField
    dsimp only
    rw [hmatched, hempty]
    rfl
  have hselval : dobValueToSelect (jsToLower (extractFieldMetadata sel.meta)) data = "" := by
    unfold dobValueToSelect
    rcases hdob with ⟨hm, hv⟩ | ⟨hm, hd, hv⟩ | ⟨hm, hd, hy, hv⟩
    · rw [if_pos hm, hv]
      rfl
    · rw [if_neg (by simp [hm]), if_pos hd]
      exact hv
    · rw [if_neg (by simp [hm]), if_neg (by simp [hd]), if_pos hy]
      exact hv
  refine ⟨?_, ?_, hsf, ?_⟩
  · rw [fillTextFields_char data inputs]
    rw [List.all_eq_true]
    intro a ha
    simp only [List.mem_map] at ha
    obtain ⟨g, hg, rfl⟩ := ha
    have hgf : shouldFillField g data = true := by
      have := List.mem_filter.mp hg
      exact this.2
    simp only [TextFillAction.target]
    by_contra hcon
    simp only [Bool.not_eq_true, Bool.not_eq_false'] at hcon
    have : g = f := eq_of_beq hcon
    rw [this, hsf] at hgf
    exact Bool.false_ne_true hgf
  · rw [fillTextFields_char data inputs]
  · rw [List.all_eq_true]
    intro a ha
    have hne := fillSelectDropdowns_targets data selects a ha
    by_contra hcon
    simp only [Bool.not_eq_true, Bool.not_eq_false'] at hcon
    have : a.target = sel := eq_of_beq hcon
    rw [this, hselval] at hne
    exact hne rfl

/-- Claim C10 witness: an all-empty record against one matched
first-name field and the three DOB dropdowns, each carrying a
selectable option; the field and all three dropdowns are left
untouched. -/
theorem claim10_empty_value_untouched_witness :
    ((fillTextFields [demoTextField] {}).2.all
      (fun a => !(a.target == demoTextField))) = true ∧
    (fillTextFields [demoTextField] ({} : ClientRecord)).1 =
      (([demoTextField] : List DomField).filter
        (fun g => shouldFillField g {})).length ∧
    shouldFillField demoTextField {} = false ∧
    ((fillSelectDropdowns demoDobSelects {}).2.all
      (fun a => !(a.target == demoMonthSelect))) = true ∧
    ((fillSelectDropdowns demoDobSelects {}).2.all
      (fun a => !(a.target == demoDaySelect))) = true ∧
    ((fillSelectDropdowns demoDobSelects {}).2.all
      (fun a => !(a.target == demoYearSelect))) = true :=
  ⟨(claim10_empty_value_untouched [demoTextField] demoDobSelects {}
      demoTextField demoMonthSelect (by decide) (by decide)
      (Or.inl ⟨by decide, rfl⟩)).1,
   (claim10_empty_value_untouched [demoTextField] demoDobSelects {}
      demoTextField demoMonthSelect (by decide) (by decide)
      (Or.inl ⟨by decide, rfl⟩)).2.1,
   (claim10_empty_value_untouched [demoTextField] demoDobSelects {}
      demoTextField demoMonthSelect (by decide) (by decide)
      (Or.inl ⟨by decide, rfl⟩)).2.2.1,
   (claim10_empty_value_untouched [demoTextField] demoDobSelects {}
      demoTextField demoMonthSelect (by decide) (by decide)
      (Or.inl ⟨by decide, rfl⟩)).2.2.2,
   (claim10_empty_value_untouched [demoTextField] demoDobSelects {}
      demoTextField demoDaySelect (by decide) (by decide)
      (Or.inr (Or.inl ⟨by decide, by decide, rfl⟩))).2.2.2,
   (claim10_empty_value_untouched [demoTextField] demoDobSelects {}
      demoTextField demoYearSelect (by decide) (by decide)
      (Or.inr (Or.inr ⟨by decide, by decide, by decide, rfl⟩))).2.2.2⟩

end SPAutofill
